import Mathlib

/-!
Verification of the SSE event-stream decoder of the Ash Python SDK
(`packages/sdk-python/ash_sdk/streaming.py`).

The decoder consumes a sequence of text lines and produces typed events:
`parse_sse_stream` tracks a mutable `current_event` string, updates it on
lines with the exact prefix `"event: "`, and on lines with the exact prefix
`"data: "` parses the remainder as JSON and dispatches through
`_parse_event` to a typed dataclass.  The async variant duplicates the same
loop verbatim.

The embedding below models Python strings as Lean `String`, the relevant
`str` methods as explicit functions on the underlying character list, JSON
values as an inductive `Json`, and Python's `json.loads` as an executable
recursive-descent parser `loads`.  A `data.get(...)` call on a non-dict
value raises `AttributeError` in Python; this uncaught exception is modelled
by the `PyError` result channel.
-/

/-! ## Python string primitives -/

/-- Character-list prefix test (examining the candidate string only as far
as the prefix reaches). -/
def charsPrefixOf (p s : List Char) : Bool :=
  match p with
  | [] => true
  | c :: cs =>
    match s with
    | [] => false
    | d :: ds => c == d && charsPrefixOf cs ds

/-- Models Python `s.startswith(p)`: character-wise prefix test. -/
def pyStartsWith (s p : String) : Bool :=
  charsPrefixOf p.data s.data

/-- Models the Python slice `s[n:]` (drop the first `n` code points). -/
def pyDrop (s : String) (n : Nat) : String :=
  String.mk (s.data.drop n)

/-- Characters stripped by Python `str.strip()` (the ASCII whitespace
subset; the full Unicode whitespace set is not needed by any input here). -/
def isPySpace (c : Char) : Bool :=
  c = ' ' || c = '\t' || c = '\n' || c = '\r' || c = '\x0b' || c = '\x0c'

/-- Models Python `s.strip()`: remove leading and trailing whitespace. -/
def pyStrip (s : String) : String :=
  String.mk (((s.data.dropWhile isPySpace).reverse.dropWhile isPySpace).reverse)

/-! ## JSON values and `json.loads` -/

/-- A JSON value as produced by Python's `json.loads`.  Numbers are kept as
`mantissa * 10 ^ exponent` pairs so that integer and fractional literals are
represented exactly; objects keep their members in source order (lookups take
the last binding for a key, matching Python `dict` construction where a later
duplicate key overwrites an earlier one). -/
inductive Json where
  | null
  | bool (b : Bool)
  | num (mantissa exponent : Int)
  | str (s : String)
  | arr (elements : List Json)
  | obj (members : List (String × Json))

/-- JSON whitespace as skipped by Python's `json` scanner (' ', tab, LF, CR). -/
def isJsonWs (c : Char) : Bool :=
  c = ' ' || c = '\t' || c = '\n' || c = '\r'

/-- Skip JSON whitespace. -/
def skipWs (cs : List Char) : List Char :=
  cs.dropWhile isJsonWs

/-- Value of a hex digit, if the character is one. -/
def hexVal (c : Char) : Option Nat :=
  if '0' ≤ c ∧ c ≤ '9' then some (c.toNat - '0'.toNat)
  else if 'a' ≤ c ∧ c ≤ 'f' then some (c.toNat - 'a'.toNat + 10)
  else if 'A' ≤ c ∧ c ≤ 'F' then some (c.toNat - 'A'.toNat + 10)
  else none

/-- Parse exactly four hex digits. -/
def parseHex4 : List Char → Option (Nat × List Char)
  | h1 :: h2 :: h3 :: h4 :: rest => do
    let a ← hexVal h1
    let b ← hexVal h2
    let c ← hexVal h3
    let d ← hexVal h4
    pure (((a * 16 + b) * 16 + c) * 16 + d, rest)
  | _ => none

/-- Resolve a single-character JSON escape. -/
def unescapeChar : Char → Option Char
  | '"' => some '"'
  | '\\' => some '\\'
  | '/' => some '/'
  | 'b' => some '\x08'
  | 'f' => some '\x0c'
  | 'n' => some '\n'
  | 'r' => some '\r'
  | 't' => some '\t'
  | _ => none

/-- Parse the body of a JSON string (the opening quote already consumed),
accumulating decoded characters.  Control characters below U+0020 must be
escaped, as in Python's strict mode.  Surrogate-pair combining of
consecutive `\uXXXX` escapes is not modelled (no input here uses it). -/
def parseStringBody : List Char → List Char → Option (String × List Char)
  | '"' :: rest, acc => some (String.mk acc.reverse, rest)
  | '\\' :: 'u' :: h1 :: h2 :: h3 :: h4 :: rest, acc =>
    match parseHex4 [h1, h2, h3, h4] with
    | some (n, _) => parseStringBody rest (Char.ofNat n :: acc)
    | none => none
  | '\\' :: c :: rest, acc =>
    match unescapeChar c with
    | some d => parseStringBody rest (d :: acc)
    | none => none
  | c :: rest, acc =>
    if c.toNat < 32 then none else parseStringBody rest (c :: acc)
  | [], _ => none

/-- Fold decimal digit characters onto a natural accumulator. -/
def digitsToNat (acc : Nat) (ds : List Char) : Nat :=
  ds.foldl (fun n c => n * 10 + (c.toNat - '0'.toNat)) acc

/-- Parse the exponent tail `[+-]?[0-9]+` after the `e` of a JSON number;
on failure the exponent is not consumed and `orig` (the input including the
`e`) is returned. -/
def parseExpTail (t : List Char) (orig : List Char) : Int × List Char :=
  let (esign, t1) :=
    match t with
    | '+' :: u => ((1 : Int), u)
    | '-' :: u => ((-1 : Int), u)
    | _ => ((1 : Int), t)
  match t1.span Char.isDigit with
  | ([], _) => (0, orig)
  | (eds, r) => (esign * (digitsToNat 0 eds : Int), r)

/-- Parse a JSON number per the grammar used by Python's `json` module:
`-?(0|[1-9][0-9]*)(\.[0-9]+)?([eE][+-]?[0-9]+)?`.  As in the Python regex,
a malformed fraction or exponent is simply not consumed (the number ends
before it), which then fails at the enclosing level. -/
def parseNumber (cs : List Char) : Option (Json × List Char) :=
  let (neg, cs1) :=
    match cs with
    | '-' :: t => (true, t)
    | _ => (false, cs)
  let intPart : Option (Nat × List Char) :=
    match cs1 with
    | '0' :: t => some (0, t)
    | c :: _ =>
      if c.isDigit then
        let (ds, rest) := cs1.span Char.isDigit
        some (digitsToNat 0 ds, rest)
      else none
    | [] => none
  match intPart with
  | none => none
  | some (ip, rest0) =>
    let (mantNat, fracLen, rest1) :=
      match rest0 with
      | '.' :: t =>
        match t.span Char.isDigit with
        | ([], _) => (ip, 0, rest0)
        | (fds, r) => (digitsToNat ip fds, fds.length, r)
      | _ => (ip, 0, rest0)
    let (expVal, rest2) :=
      match rest1 with
      | 'e' :: t => parseExpTail t rest1
      | 'E' :: t => parseExpTail t rest1
      | _ => ((0 : Int), rest1)
    let mantissa : Int := if neg then -(mantNat : Int) else (mantNat : Int)
    some (.num mantissa (expVal - fracLen), rest2)

mutual

/-- Parse one JSON value starting at the first character (leading whitespace
already skipped).  Fueled to make termination immediate; the top-level entry
supplies more fuel than the input length, which is always sufficient since
every recursive call first consumes at least one character. -/
def pJValue : Nat → List Char → Option (Json × List Char)
  | 0, _ => none
  | fuel + 1, cs =>
    match cs with
    | '\x7b' :: rest =>
      (match skipWs rest with
       | '\x7d' :: rest1 => some (.obj [], rest1)
       | rest1 =>
         match pJMembers fuel rest1 with
         | some (ms, r) => some (.obj ms, r)
         | none => none)
    | '[' :: rest =>
      (match skipWs rest with
       | ']' :: rest1 => some (.arr [], rest1)
       | rest1 =>
         match pJItems fuel rest1 with
         | some (xs, r) => some (.arr xs, r)
         | none => none)
    | '"' :: rest =>
      (match parseStringBody rest [] with
       | some (s, r) => some (.str s, r)
       | none => none)
    | 't' :: 'r' :: 'u' :: 'e' :: rest => some (.bool true, rest)
    | 'f' :: 'a' :: 'l' :: 's' :: 'e' :: rest => some (.bool false, rest)
    | 'n' :: 'u' :: 'l' :: 'l' :: rest => some (.null, rest)
    | c :: _ =>
      if c = '-' ∨ c.isDigit then parseNumber cs else none
    | [] => none

/-- Parse the members of a JSON object after `{` (at least one member;
the empty object is handled by the caller). -/
def pJMembers : Nat → List Char → Option (List (String × Json) × List Char)
  | 0, _ => none
  | fuel + 1, cs =>
    match cs with
    | '"' :: rest =>
      (match parseStringBody rest [] with
       | some (k, rest1) =>
         (match skipWs rest1 with
          | ':' :: rest2 =>
            (match pJValue fuel (skipWs rest2) with
             | some (v, rest3) =>
               (match skipWs rest3 with
                | ',' :: rest4 =>
                  (match pJMembers fuel (skipWs rest4) with
                   | some (ms, r) => some ((k, v) :: ms, r)
                   | none => none)
                | '\x7d' :: rest4 => some ([(k, v)], rest4)
                | _ => none)
             | none => none)
          | _ => none)
       | none => none)
    | _ => none

/-- Parse the items of a JSON array after `[` (at least one item;
the empty array is handled by the caller). -/
def pJItems : Nat → List Char → Option (List Json × List Char)
  | 0, _ => none
  | fuel + 1, cs =>
    match pJValue fuel cs with
    | some (v, rest) =>
      (match skipWs rest with
       | ',' :: rest1 =>
         (match pJItems fuel (skipWs rest1) with
          | some (xs, r) => some (v :: xs, r)
          | none => none)
       | ']' :: rest1 => some ([v], rest1)
       | _ => none)
    | none => none

end

/-- Models Python `json.loads`: parse a whole string as one JSON document
(surrounding whitespace allowed), returning `none` where Python raises
`json.JSONDecodeError`.  The non-standard `NaN`/`Infinity` extensions that
CPython additionally accepts are not modelled (no input here uses them). -/
def loads (s : String) : Option Json :=
  match pJValue (s.data.length + 2) (skipWs s.data) with
  | some (j, rest) => if skipWs rest = [] then some j else none
  | none => none

/-! ## Typed events (the dataclasses of `streaming.py`)

Python dataclasses do not enforce their field annotations at runtime: a
field receives exactly the value `data.get(...)` returns, which is an
arbitrary JSON value.  Fields are therefore modelled as `Json`; the Python
defaults `""`, `False`, `None` and `"Unknown error"` coincide with the
values JSON `""`/`false`/`null` parse to, so they are the corresponding
`Json` constants. -/

/-- The typed event union `AshEvent` of `streaming.py`.  `stream` is the
fallback `StreamEvent` for unknown event types. -/
inductive AshEvent where
  | message (data : Json)
  | textDelta (delta : Json)
  | thinkingDelta (delta : Json)
  | toolUse (id name input : Json)
  | toolResult (tool_use_id content is_error : Json)
  | turnComplete (numTurns result : Json)
  | sessionStart (session_id version : Json)
  | error (error : Json)
  | done (session_id : Json)
  | stream (event : String) (data : Json)

/-- The one Python exception the decoder can raise past its `try`:
`AttributeError`, from calling `.get` on a non-dict. -/
inductive PyError where
  | attributeError

/-- Lookup in an object's member list with a default, taking the last
binding for the key: models `dict.get(key, default)` on the dict Python
builds from the parsed members, where a duplicate key overwrites. -/
def lookupD : List (String × Json) → String → Json → Json
  | [], _, d => d
  | (k', v) :: rest, k, d => if k' = k then lookupD rest k v else lookupD rest k d

/-- Models Python `data.get(key, default)`: succeeds on a dict, raises
`AttributeError` on every other JSON value (list, str, int, float, bool,
None — none of them has a `.get` method). -/
def Json.getD : Json → String → Json → Except PyError Json
  | .obj ms, k, d => .ok (lookupD ms k d)
  | _, _, _ => .error .attributeError

/-- Embeds `_parse_event(event_type, data)`: convert a raw SSE event into a
typed event, filling absent fields from the defaults.  Each `data.get` call
is a `Json.getD` that can raise `AttributeError` when `data` is not a dict. -/
def parseEvent (event_type : String) (data : Json) : Except PyError AshEvent :=
  if event_type = "message" then
    .ok (.message data)
  else if event_type = "text_delta" then
    match data.getD "delta" (.str "") with
    | .ok d => .ok (.textDelta d)
    | .error e => .error e
  else if event_type = "thinking_delta" then
    match data.getD "delta" (.str "") with
    | .ok d => .ok (.thinkingDelta d)
    | .error e => .error e
  else if event_type = "tool_use" then
    match data.getD "id" (.str "") with
    | .ok i =>
      (match data.getD "name" (.str "") with
       | .ok n =>
         (match data.getD "input" .null with
          | .ok inp => .ok (.toolUse i n inp)
          | .error e => .error e)
       | .error e => .error e)
    | .error e => .error e
  else if event_type = "tool_result" then
    match data.getD "tool_use_id" (.str "") with
    | .ok t =>
      (match data.getD "content" .null with
       | .ok c =>
         (match data.getD "is_error" (.bool false) with
          | .ok ie => .ok (.toolResult t c ie)
          | .error e => .error e)
       | .error e => .error e)
    | .error e => .error e
  else if event_type = "turn_complete" then
    match data.getD "numTurns" .null with
    | .ok nt =>
      (match data.getD "result" .null with
       | .ok r => .ok (.turnComplete nt r)
       | .error e => .error e)
    | .error e => .error e
  else if event_type = "session_start" then
    match data.getD "sessionId" (.str "") with
    | .ok sid =>
      (match data.getD "version" .null with
       | .ok v => .ok (.sessionStart sid v)
       | .error e => .error e)
    | .error e => .error e
  else if event_type = "error" then
    match data.getD "error" (.str "Unknown error") with
    | .ok er => .ok (.error er)
    | .error e => .error e
  else if event_type = "done" then
    match data.getD "sessionId" (.str "") with
    | .ok sid => .ok (.done sid)
    | .error e => .error e
  else
    .ok (.stream event_type data)

/-! ## The decoder loops -/

/-- Embeds the loop body of `parse_sse_stream`: consume the lines in order,
threading the mutable `current_event` string.  Returns the list of events
the generator yields, the final value of `current_event`, and `some e` when
an uncaught Python exception `e` terminates the generator early (events
yielded before that point are kept, matching generator semantics). -/
def runSSE (current_event : String) : List String → List AshEvent × String × Option PyError
  | [] => ([], current_event, none)
  | line :: rest =>
    if pyStartsWith line "event: " then
      runSSE (pyStrip (pyDrop line 7)) rest
    else if pyStartsWith line "data: " then
      match loads (pyDrop line 6) with
      | some data =>
        (match parseEvent current_event data with
         | .ok ev =>
           let (evs, fin, err) := runSSE current_event rest
           (ev :: evs, fin, err)
         | .error e => ([], current_event, some e))
      | none => runSSE current_event rest
    else
      runSSE current_event rest

/-- Embeds `parse_sse_stream(response)`: iterate the response lines with
`current_event` initialized to `""`, yielding typed events; the second
component records an uncaught exception, `none` on normal exhaustion. -/
def parse_sse_stream (lines : List String) : List AshEvent × Option PyError :=
  ((runSSE "" lines).1, (runSSE "" lines).2.2)

/-- Embeds the loop body of `parse_sse_stream_async`, which duplicates the
sync loop verbatim over `aiter_lines` (same state, same branches). -/
def runSSEAsync (current_event : String) : List String → List AshEvent × String × Option PyError
  | [] => ([], current_event, none)
  | line :: rest =>
    if pyStartsWith line "event: " then
      runSSEAsync (pyStrip (pyDrop line 7)) rest
    else if pyStartsWith line "data: " then
      match loads (pyDrop line 6) with
      | some data =>
        (match parseEvent current_event data with
         | .ok ev =>
           let (evs, fin, err) := runSSEAsync current_event rest
           (ev :: evs, fin, err)
         | .error e => ([], current_event, some e))
      | none => runSSEAsync current_event rest
    else
      runSSEAsync current_event rest

/-- Embeds `parse_sse_stream_async(response)`: the async driver over the
same parsing logic, modelled on the same line sequence. -/
def parse_sse_stream_async (lines : List String) : List AshEvent × Option PyError :=
  ((runSSEAsync "" lines).1, (runSSEAsync "" lines).2.2)

/-! ## Step lemmas for the decoder loop -/

/-- Unfolding `runSSE` on the empty line source. -/
theorem runSSE_nil (cur : String) : runSSE cur [] = ([], cur, none) := rfl

/-- Unfolding `runSSE` on a cons cell. -/
theorem runSSE_cons (cur line : String) (rest : List String) :
    runSSE cur (line :: rest) =
      if pyStartsWith line "event: " then
        runSSE (pyStrip (pyDrop line 7)) rest
      else if pyStartsWith line "data: " then
        match loads (pyDrop line 6) with
        | some data =>
          (match parseEvent cur data with
           | .ok ev =>
             let (evs, fin, err) := runSSE cur rest
             (ev :: evs, fin, err)
           | .error e => ([], cur, some e))
        | none => runSSE cur rest
      else
        runSSE cur rest := rfl

/-- A line of the shape `"event: " ++ name` updates the current event name to
the whitespace-stripped remainder and emits nothing. -/
theorem runSSE_event_step (cur name : String) (rest : List String) :
    runSSE cur (("event: " ++ name) :: rest) = runSSE (pyStrip name) rest := by
  cases name
  rfl

/-- A line of the shape `"data: " ++ raw` parses exactly the untrimmed
remainder `raw` as JSON: on success it dispatches through `parseEvent` with
the current event name, on failure it is skipped. -/
theorem runSSE_data_step (cur raw : String) (rest : List String) :
    runSSE cur (("data: " ++ raw) :: rest) =
      match loads raw with
      | some data =>
        (match parseEvent cur data with
         | .ok ev =>
           let (evs, fin, err) := runSSE cur rest
           (ev :: evs, fin, err)
         | .error e => ([], cur, some e))
      | none => runSSE cur rest := by
  cases raw
  rfl

/-- A line carrying neither recognized prefix is ignored entirely. -/
theorem runSSE_skip_step (cur line : String) (rest : List String)
    (h1 : pyStartsWith line "event: " = false)
    (h2 : pyStartsWith line "data: " = false) :
    runSSE cur (line :: rest) = runSSE cur rest := by
  rw [runSSE_cons, h1, h2]
  simp

/-- Decoding a well-formed two-line-plus-blank frame whose payload parses and
whose dispatch succeeds yields exactly the dispatched event. -/
theorem parse_frame (name raw : String) (j : Json) (e : AshEvent)
    (hn : pyStrip name = name)
    (hl : loads raw = some j)
    (hp : parseEvent name j = .ok e) :
    parse_sse_stream ["event: " ++ name, "data: " ++ raw, ""] = ([e], none) := by
  unfold parse_sse_stream
  rw [runSSE_event_step, hn, runSSE_data_step, hl]
  simp only [hp]
  rfl

/-- Lookup of a key absent from the members falls back to the default. -/
theorem lookupD_absent (kvs : List (String × Json)) (k : String) (d : Json)
    (h : ∀ p ∈ kvs, p.1 ≠ k) : lookupD kvs k d = d := by
  induction kvs with
  | nil => rfl
  | cons p rest ih =>
    obtain ⟨k', v⟩ := p
    have hk : k' ≠ k := h (k', v) (List.mem_cons_self _ _)
    simp only [lookupD, if_neg hk]
    exact ih (fun q hq => h q (List.mem_cons_of_mem _ hq))

/-! ## Claim theorems -/

/-- C8: decoding the three input lines of Scenario A — an `event: done`
line, a data line whose payload is the object with `sessionId` set to `s1`,
and a blank line —
yields exactly the one-element event sequence `[Done "s1"]` (Scenario A). -/
theorem sse_scenario_done_frame :
    parse_sse_stream ["event: done", "data: \x7b\"sessionId\": \"s1\"\x7d", ""] =
      ([.done (.str "s1")], none) := rfl

/-- C2: a `data:` line whose remainder does not parse as JSON yields no event
and surfaces no error, and decoding continues unaffected with the following
lines; in particular Scenario B yields exactly `[Done "s1"]`. -/
theorem sse_malformed_data_skipped :
    (∀ (cur raw : String) (rest : List String), loads raw = none →
        runSSE cur (("data: " ++ raw) :: rest) = runSSE cur rest) ∧
    parse_sse_stream
        ["event: message", "data: not-json", "", "event: done",
         "data: \x7b\"sessionId\":\"s1\"\x7d", ""] =
      ([.done (.str "s1")], none) := by
  constructor
  · intro cur raw rest h
    rw [runSSE_data_step, h]
  · rfl

/-- Witness for C2 at the concrete non-JSON payload `not-json`. -/
theorem sse_malformed_data_skipped_witness :
    runSSE "message" ["data: not-json"] = runSSE "message" [] :=
  sse_malformed_data_skipped.1 "message" "not-json" [] rfl

/-- C10: a `data:` line carrying a JSON object that arrives before any
`event:` line is decoded with the initial empty event name, yielding the
fallback `StreamEvent` with event name `""` and the parsed payload (neither
treated as a `message` nor dropped). -/
theorem sse_data_before_event_fallback :
    ∀ (raw : String) (kvs : List (String × Json)),
      loads raw = some (.obj kvs) →
      parse_sse_stream ["data: " ++ raw] = ([.stream "" (.obj kvs)], none) := by
  intro raw kvs h
  unfold parse_sse_stream
  rw [runSSE_data_step, h]
  rfl

/-- Witness for C10 at a concrete object payload. -/
theorem sse_data_before_event_fallback_witness :
    parse_sse_stream ["data: \x7b\"note\":\"early\"\x7d"] =
      ([.stream "" (.obj [("note", .str "early")])], none) :=
  sse_data_before_event_fallback "\x7b\"note\":\"early\"\x7d" [("note", .str "early")] rfl

/-- C9: only the exact byte prefixes `"event: "` and `"data: "` are
recognized: any other line (including `event:` without a space, `Event: `
in different case, and the `id:`/`retry:` SSE fields) neither updates the
current event name nor yields an event; the remainder after `"event: "` is
whitespace-trimmed to form the name while the remainder after `"data: "` is
taken untrimmed as the payload. -/
theorem sse_exact_prefixes :
    (∀ (cur line : String) (rest : List String),
        pyStartsWith line "event: " = false → pyStartsWith line "data: " = false →
        runSSE cur (line :: rest) = runSSE cur rest) ∧
    runSSE "prev" ["event:done"] = ([], "prev", none) ∧
    runSSE "prev" ["Event: done"] = ([], "prev", none) ∧
    runSSE "prev" ["id: 123"] = ([], "prev", none) ∧
    runSSE "prev" ["retry: 100"] = ([], "prev", none) ∧
    (∀ (cur name : String) (rest : List String),
        runSSE cur (("event: " ++ name) :: rest) = runSSE (pyStrip name) rest) ∧
    (runSSE "p" ["event:  spaced\t"]).2.1 = "spaced" ∧
    (∀ (cur raw : String) (rest : List String),
        runSSE cur (("data: " ++ raw) :: rest) =
          match loads raw with
          | some data =>
            (match parseEvent cur data with
             | .ok ev =>
               let (evs, fin, err) := runSSE cur rest
               (ev :: evs, fin, err)
             | .error e => ([], cur, some e))
          | none => runSSE cur rest) :=
  ⟨runSSE_skip_step, rfl, rfl, rfl, rfl,
   fun cur name rest => runSSE_event_step cur name rest, rfl,
   fun cur raw rest => runSSE_data_step cur raw rest⟩

/-- Witness for C9 at the concrete unrecognized line `id: 9`. -/
theorem sse_exact_prefixes_witness :
    runSSE "prev" ["id: 9"] = runSSE "prev" [] :=
  sse_exact_prefixes.1 "prev" "id: 9" [] rfl rfl

/-- C5: the current event name persists until the next `event:` line — no
non-`event:` line changes it (blank lines, comment lines, unrecognized
prefixes, and `data:` lines included) — and two `data:` lines under one
`event:` line, even separated by a blank line, yield two events of the same
variant. -/
theorem sse_event_name_persists :
    (∀ (cur line : String), pyStartsWith line "event: " = false →
        (runSSE cur [line]).2.1 = cur) ∧
    (runSSE "x" ["", ": comment", "unrecognized line"]).2.1 = "x" ∧
    parse_sse_stream
        ["event: text_delta", "data: \x7b\"delta\":\"a\"\x7d", "",
         "data: \x7b\"delta\":\"b\"\x7d", ""] =
      ([.textDelta (.str "a"), .textDelta (.str "b")], none) := by
  refine ⟨?_, rfl, rfl⟩
  intro cur line h1
  rw [runSSE_cons, h1]
  cases h2 : pyStartsWith line "data: " with
  | false => rfl
  | true =>
    cases hL : loads (pyDrop line 6) with
    | none => rfl
    | some d =>
      cases hP : parseEvent cur d with
      | ok ev => simp only [hP]; rfl
      | error e => simp only [hP]; rfl

/-- Witness for C5 at a concrete comment line. -/
theorem sse_event_name_persists_witness :
    (runSSE "x" [": heartbeat"]).2.1 = "x" :=
  sse_event_name_persists.1 "x" ": heartbeat" rfl

/-- C1: for every known event name and every JSON-object payload, decoding
the two-line-plus-blank frame `event: <name>` / `data: <payload>` yields
exactly one event of the mapped variant, fields taken from the payload with
absent fields filled from the defaults column (`is_error` ↦ `false`,
`delta` ↦ `""`, `error` ↦ `"Unknown error"`, `sessionId` ↦ `""`, …); the
final conjunct states that the `lookupD` field extraction indeed returns the
default whenever the key is absent. -/
theorem sse_known_event_defaults :
    ∀ (raw : String) (kvs : List (String × Json)), loads raw = some (.obj kvs) →
      (parse_sse_stream ["event: message", "data: " ++ raw, ""] =
        ([.message (.obj kvs)], none)) ∧
      (parse_sse_stream ["event: text_delta", "data: " ++ raw, ""] =
        ([.textDelta (lookupD kvs "delta" (.str ""))], none)) ∧
      (parse_sse_stream ["event: thinking_delta", "data: " ++ raw, ""] =
        ([.thinkingDelta (lookupD kvs "delta" (.str ""))], none)) ∧
      (parse_sse_stream ["event: tool_use", "data: " ++ raw, ""] =
        ([.toolUse (lookupD kvs "id" (.str "")) (lookupD kvs "name" (.str ""))
            (lookupD kvs "input" .null)], none)) ∧
      (parse_sse_stream ["event: tool_result", "data: " ++ raw, ""] =
        ([.toolResult (lookupD kvs "tool_use_id" (.str ""))
            (lookupD kvs "content" .null)
            (lookupD kvs "is_error" (.bool false))], none)) ∧
      (parse_sse_stream ["event: turn_complete", "data: " ++ raw, ""] =
        ([.turnComplete (lookupD kvs "numTurns" .null)
            (lookupD kvs "result" .null)], none)) ∧
      (parse_sse_stream ["event: session_start", "data: " ++ raw, ""] =
        ([.sessionStart (lookupD kvs "sessionId" (.str ""))
            (lookupD kvs "version" .null)], none)) ∧
      (parse_sse_stream ["event: error", "data: " ++ raw, ""] =
        ([.error (lookupD kvs "error" (.str "Unknown error"))], none)) ∧
      (parse_sse_stream ["event: done", "data: " ++ raw, ""] =
        ([.done (lookupD kvs "sessionId" (.str ""))], none)) ∧
      (∀ (k : String) (d : Json), (∀ p ∈ kvs, p.1 ≠ k) → lookupD kvs k d = d) := by
  intro raw kvs h
  exact ⟨parse_frame "message" raw _ _ rfl h rfl,
    parse_frame "text_delta" raw _ _ rfl h rfl,
    parse_frame "thinking_delta" raw _ _ rfl h rfl,
    parse_frame "tool_use" raw _ _ rfl h rfl,
    parse_frame "tool_result" raw _ _ rfl h rfl,
    parse_frame "turn_complete" raw _ _ rfl h rfl,
    parse_frame "session_start" raw _ _ rfl h rfl,
    parse_frame "error" raw _ _ rfl h rfl,
    parse_frame "done" raw _ _ rfl h rfl,
    fun k d hk => lookupD_absent kvs k d hk⟩

/-- Witness for C1 at the concrete payload of Scenario C: a tool_result
frame omitting is_error yields is_error = false. -/
theorem sse_known_event_defaults_witness :
    parse_sse_stream ["event: tool_result", "data: \x7b\"tool_use_id\":\"t1\",\"content\":\"x\"\x7d", ""] =
      ([.toolResult (.str "t1") (.str "x") (.bool false)], none) :=
  (sse_known_event_defaults "\x7b\"tool_use_id\":\"t1\",\"content\":\"x\"\x7d"
    [("tool_use_id", .str "t1"), ("content", .str "x")] rfl).2.2.2.2.1

/-- C6: every event name outside the nine known names maps to the fallback
`StreamEvent`, carrying exactly that event name and exactly the JSON value
parsed from the data line, unchanged. -/
theorem sse_unknown_event_roundtrip :
    ∀ (name raw : String) (j : Json),
      name ∉ (["message", "text_delta", "thinking_delta", "tool_use", "tool_result",
               "turn_complete", "session_start", "error", "done"] : List String) →
      pyStrip name = name →
      loads raw = some j →
      parse_sse_stream ["event: " ++ name, "data: " ++ raw, ""] =
        ([.stream name j], none) := by
  intro name raw j hmem hn hl
  simp only [List.mem_cons, List.not_mem_nil, or_false] at hmem
  push_neg at hmem
  obtain ⟨h1, h2, h3, h4, h5, h6, h7, h8, h9⟩ := hmem
  refine parse_frame name raw j _ hn hl ?_
  unfold parseEvent
  rw [if_neg h1, if_neg h2, if_neg h3, if_neg h4, if_neg h5, if_neg h6, if_neg h7,
    if_neg h8, if_neg h9]

/-- Witness for C6 at a concrete unknown event name and non-trivial payload. -/
theorem sse_unknown_event_roundtrip_witness :
    parse_sse_stream ["event: custom_event", "data: \x7b\"foo\":[1,\"bar\",null,true]\x7d", ""] =
      ([.stream "custom_event"
          (.obj [("foo", .arr [.num 1 0, .str "bar", .null, .bool true])])], none) :=
  sse_unknown_event_roundtrip "custom_event" "\x7b\"foo\":[1,\"bar\",null,true]\x7d"
    (.obj [("foo", .arr [.num 1 0, .str "bar", .null, .bool true])])
    (by decide) rfl rfl

/-- Unfolding `runSSEAsync` on a cons cell. -/
theorem runSSEAsync_cons (cur line : String) (rest : List String) :
    runSSEAsync cur (line :: rest) =
      if pyStartsWith line "event: " then
        runSSEAsync (pyStrip (pyDrop line 7)) rest
      else if pyStartsWith line "data: " then
        match loads (pyDrop line 6) with
        | some data =>
          (match parseEvent cur data with
           | .ok ev =>
             let (evs, fin, err) := runSSEAsync cur rest
             (ev :: evs, fin, err)
           | .error e => ([], cur, some e))
        | none => runSSEAsync cur rest
      else
        runSSEAsync cur rest := rfl

/-- The async loop body computes exactly the sync loop body from every
state and line source. -/
theorem runSSEAsync_eq_runSSE (cur : String) (lines : List String) :
    runSSEAsync cur lines = runSSE cur lines := by
  induction lines generalizing cur with
  | nil => rfl
  | cons line rest ih =>
    rw [runSSEAsync_cons, runSSE_cons]
    cases hE : pyStartsWith line "event: " with
    | true => simp only [if_pos trivial]; exact ih _
    | false =>
      cases hD : pyStartsWith line "data: " with
      | false => simp only [ih]
      | true =>
        cases hL : loads (pyDrop line 6) with
        | none => simp only [ih]
        | some d =>
          cases hP : parseEvent cur d with
          | ok ev => simp only [ih]
          | error e => simp only [ih]

/-- C4: the synchronous and asynchronous decoders have identical parsing
semantics — from every state and every line source the duplicated async
loop computes exactly what the sync loop computes, so `parse_sse_stream`
and `parse_sse_stream_async` yield the same events in the same order. -/
theorem sse_sync_async_equal :
    (∀ (cur : String) (lines : List String), runSSEAsync cur lines = runSSE cur lines) ∧
    (∀ lines : List String, parse_sse_stream_async lines = parse_sse_stream lines) :=
  ⟨runSSEAsync_eq_runSSE,
   fun lines => by
     unfold parse_sse_stream_async parse_sse_stream
     rw [runSSEAsync_eq_runSSE]⟩

/-- An `event: `-prefixed line steps the state without emitting. -/
theorem runSSE_cons_event (cur line : String) (rest : List String)
    (h : pyStartsWith line "event: " = true) :
    runSSE cur (line :: rest) = runSSE (pyStrip (pyDrop line 7)) rest := by
  rw [runSSE_cons, h]
  simp

/-- A `data: `-prefixed line parses its remainder and dispatches. -/
theorem runSSE_cons_dataline (cur line : String) (rest : List String)
    (h1 : pyStartsWith line "event: " = false)
    (h2 : pyStartsWith line "data: " = true) :
    runSSE cur (line :: rest) =
      match loads (pyDrop line 6) with
      | some data =>
        (match parseEvent cur data with
         | .ok ev =>
           let (evs, fin, err) := runSSE cur rest
           (ev :: evs, fin, err)
         | .error e => ([], cur, some e))
      | none => runSSE cur rest := by
  rw [runSSE_cons, h1, h2]
  simp

/-- The decoder yields at most one event per `data: `-prefixed line. -/
theorem runSSE_events_le_data_lines : ∀ (lines : List String) (cur : String),
    (runSSE cur lines).1.length ≤
      (lines.filter (fun l => pyStartsWith l "data: ")).length := by
  intro lines
  induction lines with
  | nil => intro cur; exact Nat.le_refl 0
  | cons line rest ih =>
    intro cur
    have hmono : (rest.filter (fun l => pyStartsWith l "data: ")).length ≤
        ((line :: rest).filter (fun l => pyStartsWith l "data: ")).length := by
      rw [List.filter_cons]
      split
      · exact Nat.le_succ _
      · exact Nat.le_refl _
    cases hE : pyStartsWith line "event: " with
    | true =>
      rw [runSSE_cons_event cur line rest hE]
      exact Nat.le_trans (ih _) hmono
    | false =>
      cases hD : pyStartsWith line "data: " with
      | false =>
        rw [runSSE_skip_step cur line rest hE hD]
        exact Nat.le_trans (ih cur) hmono
      | true =>
        rw [runSSE_cons_dataline cur line rest hE hD]
        have hfc : ((line :: rest).filter (fun l => pyStartsWith l "data: ")).length =
            (rest.filter (fun l => pyStartsWith l "data: ")).length + 1 := by
          rw [List.filter_cons, if_pos hD]
          rfl
        rw [hfc]
        cases hL : loads (pyDrop line 6) with
        | none => exact Nat.le_succ_of_le (ih cur)
        | some d =>
          cases hP : parseEvent cur d with
          | error e => simp only [hP]; exact Nat.zero_le _
          | ok ev =>
            simp only [hP]
            rcases hR : runSSE cur rest with ⟨evs, fin2, err⟩
            have h2 := ih cur
            rw [hR] at h2
            exact Nat.succ_le_succ h2

/-- Without any `data: `-prefixed line the decoder yields nothing. -/
theorem runSSE_no_data_no_events : ∀ (lines : List String) (cur : String),
    (∀ l ∈ lines, pyStartsWith l "data: " = false) → (runSSE cur lines).1 = [] := by
  intro lines
  induction lines with
  | nil => intro cur _; rfl
  | cons line rest ih =>
    intro cur h
    have hrest : ∀ l ∈ rest, pyStartsWith l "data: " = false :=
      fun l hl => h l (List.mem_cons_of_mem _ hl)
    have hD := h line (List.mem_cons_self _ _)
    cases hE : pyStartsWith line "event: " with
    | true =>
      rw [runSSE_cons_event cur line rest hE]
      exact ih _ hrest
    | false =>
      rw [runSSE_skip_step cur line rest hE hD]
      exact ih cur hrest

/-- C7: the decoder yields at most one event per line consumed (indeed at
most one per `data: `-prefixed line), yields events only for `data: `
lines, and preserves input order with no coalescing: two consecutive
frames with the same event name yield two independent events in order
(Scenario D). -/
theorem sse_at_most_one_event_per_line :
    (∀ (lines : List String) (cur : String),
        (runSSE cur lines).1.length ≤
          (lines.filter (fun l => pyStartsWith l "data: ")).length) ∧
    (∀ (lines : List String) (cur : String),
        (runSSE cur lines).1.length ≤ lines.length) ∧
    (∀ (lines : List String) (cur : String),
        (∀ l ∈ lines, pyStartsWith l "data: " = false) → (runSSE cur lines).1 = []) ∧
    parse_sse_stream
        ["event: message", "data: \x7b\"a\":1\x7d", "",
         "event: message", "data: \x7b\"b\":2\x7d", ""] =
      ([.message (.obj [("a", .num 1 0)]), .message (.obj [("b", .num 2 0)])], none) :=
  ⟨runSSE_events_le_data_lines,
   fun lines cur =>
     Nat.le_trans (runSSE_events_le_data_lines lines cur) (List.length_filter_le _ _),
   runSSE_no_data_no_events,
   rfl⟩

/-- Witness for C7 on a concrete input with no data lines. -/
theorem sse_at_most_one_event_per_line_witness :
    (runSSE "" ["event: ping", ": c"]).1 = [] :=
  sse_at_most_one_event_per_line.2.2.1 ["event: ping", ": c"] "" (by
    intro l hl
    simp only [List.mem_cons, List.not_mem_nil, or_false] at hl
    rcases hl with rfl | rfl <;> rfl)

/-- Dispatch never raises when the payload is a dict: every branch of
`parseEvent` either stores the payload as-is or extracts fields via
`Json.getD`, which succeeds on objects. -/
theorem parseEvent_obj_ok (cur : String) (kvs : List (String × Json)) :
    ∃ e, parseEvent cur (.obj kvs) = .ok e := by
  unfold parseEvent
  split_ifs <;> exact ⟨_, rfl⟩

/-- C3 counterexample: a `data:` line whose remainder parses as JSON but is
not a JSON object does fault — `data.get` on the non-dict payload raises an
uncaught `AttributeError` that terminates the stream, contradicting the
claim that the decoder never propagates any error. -/
theorem sse_nonobject_payload_fault :
    parse_sse_stream ["event: text_delta", "data: 5"] =
      ([], some .attributeError) := rfl

/-- C3 (amended): decoding surfaces no error for every input whose
`data: ` lines' successfully-parsed payloads are all JSON objects (the
malformed-JSON case remains swallowed); totality fails only on a `data:`
line whose remainder parses to a non-object JSON value, where `data.get`
raises `AttributeError`. -/
theorem sse_total_on_object_payloads :
    ∀ (lines : List String) (cur : String),
      (∀ l ∈ lines, pyStartsWith l "data: " = true → ∀ j,
        loads (pyDrop l 6) = some j → ∃ kvs, j = Json.obj kvs) →
      (runSSE cur lines).2.2 = none ∧ (parse_sse_stream lines).2 = none := by
  have main : ∀ (lines : List String) (cur : String),
      (∀ l ∈ lines, pyStartsWith l "data: " = true → ∀ j,
        loads (pyDrop l 6) = some j → ∃ kvs, j = Json.obj kvs) →
      (runSSE cur lines).2.2 = none := by
    intro lines
    induction lines with
    | nil => intro cur _; rfl
    | cons line rest ih =>
      intro cur h
      have hrest : ∀ l ∈ rest, pyStartsWith l "data: " = true → ∀ j,
          loads (pyDrop l 6) = some j → ∃ kvs, j = Json.obj kvs :=
        fun l hl => h l (List.mem_cons_of_mem _ hl)
      cases hE : pyStartsWith line "event: " with
      | true =>
        rw [runSSE_cons_event cur line rest hE]
        exact ih _ hrest
      | false =>
        cases hD : pyStartsWith line "data: " with
        | false =>
          rw [runSSE_skip_step cur line rest hE hD]
          exact ih cur hrest
        | true =>
          rw [runSSE_cons_dataline cur line rest hE hD]
          cases hL : loads (pyDrop line 6) with
          | none => exact ih cur hrest
          | some j =>
            obtain ⟨kvs, rfl⟩ := h line (List.mem_cons_self _ _) hD j hL
            obtain ⟨e, hP⟩ := parseEvent_obj_ok cur kvs
            simp only [hP]
            rcases hR : runSSE cur rest with ⟨evs, fin2, err⟩
            have h2 := ih cur hrest
            rw [hR] at h2
            exact h2
  intro lines cur h
  exact ⟨main lines cur h, main lines "" h⟩

/-- Witness for the amended C3 on a concrete all-object input. -/
theorem sse_total_on_object_payloads_witness :
    (runSSE "" ["event: done", "data: \x7b\"sessionId\":\"s1\"\x7d"]).2.2 = none ∧
      (parse_sse_stream ["event: done", "data: \x7b\"sessionId\":\"s1\"\x7d"]).2 = none :=
  sse_total_on_object_payloads ["event: done", "data: \x7b\"sessionId\":\"s1\"\x7d"] "" (by
    intro l hl hsw j hj
    simp only [List.mem_cons, List.not_mem_nil, or_false] at hl
    rcases hl with rfl | rfl
    · exact absurd hsw (by decide)
    · have h0 : loads (pyDrop "data: \x7b\"sessionId\":\"s1\"\x7d" 6) =
          some (Json.obj [("sessionId", Json.str "s1")]) := rfl
      rw [h0] at hj
      exact ⟨[("sessionId", Json.str "s1")], (Option.some.inj hj).symm⟩)
